import Mathlib

/-!
Shallow embedding of the dropwishes-api rule engines
(src/app/wishlist/views.py, src/app/blog/views.py, src/app/core/models.py,
src/app/user/permissions.py, src/app/wishlist/serializers.py).

The relational store is embedded as lists of records; each HTTP handler is a
pure function from the store and the request data to an HTTP status plus the
updated store.  Django auto primary keys are embedded as explicit counters on
the store.  The authenticated requester is an `Option Nat` user id
(`none` embeds Django's AnonymousUser).

Fields `Wishlist.is_public`, `Product.is_reserved` and the product-to-wishlist
association used by the reserve/unreserve handlers are referenced by the views
but absent from src/app/core/models.py; they are modelled from the spec where
noted.
-/

/-- HTTP status classes returned by the handlers; `error500` embeds an
unhandled fault (an exception that no handler catches). -/
inductive HttpStatus where
  | ok200
  | created201
  | noContent204
  | badRequest400
  | unauthorized401
  | forbidden403
  | notFound404
  | error500
deriving DecidableEq

/-- core.models.User (src/app/core/models.py:55-84): the fields the two rule
engines consult — primary key, the stable public uuid used in share links
(embedded as a Nat), and the privileged-role flag. -/
structure User where
  id : Nat
  uuid : Nat
  is_staff : Bool
deriving DecidableEq

/-- core.models.Product (src/app/core/models.py:106-134): user (owner) FK,
name, priority (a CharField with choices), price (DecimalField, embedded as
Int in hundredths), optional link/image, notes.
`is_reserved` is Modelled from the spec: a boolean, default false, toggled by
the reserve/unreserve handlers; the field is missing from
src/app/core/models.py although src/app/wishlist/views.py reads and writes
`product.is_reserved`. -/
structure Product where
  id : Nat
  user : Nat
  name : String
  priority : String
  price : Int
  link : Option String
  image : Option String
  notes : String
  is_reserved : Bool
deriving DecidableEq

/-- core.models.Wishlist (src/app/core/models.py:87-103): user (owner) FK,
title, description, occasion_date (embedded as a String), address, and the
many-to-many product set (a list of product ids).
`is_public` is Modelled from the spec: a boolean, default false, set by
generate_share_link and read by view_shared_wishlist; the field is missing
from src/app/core/models.py although src/app/wishlist/views.py reads and
writes `wishlist.is_public`. -/
structure Wishlist where
  id : Nat
  user : Nat
  title : String
  description : String
  occasion_date : String
  address : String
  products : List Nat
  is_public : Bool
deriving DecidableEq

/-- core.models.Post (src/app/core/models.py:137-153): the fields the comment
rule engine consults. -/
structure Post where
  id : Nat
  owner : Nat
  title : String
deriving DecidableEq

/-- core.models.Comment (src/app/core/models.py:156-180): body, owner FK,
post FK, optional self-referencing parent_comment FK. -/
structure Comment where
  id : Nat
  body : String
  owner : Nat
  post : Nat
  parent_comment : Option Nat
deriving DecidableEq

/-- The relational store: one list per table, plus the auto-primary-key
counters that Django keeps per table. -/
structure DB where
  users : List User
  wishlists : List Wishlist
  products : List Product
  posts : List Post
  comments : List Comment
  nextWishlistId : Nat
  nextProductId : Nat
  nextCommentId : Nat
deriving DecidableEq

/-- Product.HIGH (src/app/core/models.py:109). -/
def HIGH : String := "HIGH"

/-- Product.MEDIUM (src/app/core/models.py:110). -/
def MEDIUM : String := "MEDIUM"

/-- Product.LOW (src/app/core/models.py:111). -/
def LOW : String := "LOW"

/-- Product.PRIORITY_CHOICES (src/app/core/models.py:113): pairs of
(stored value, display label). -/
def PRIORITY_CHOICES : List (String × String) :=
  [(HIGH, "high"), (MEDIUM, "medium"), (LOW, "low")]

/-- The default of the priority field (src/app/core/models.py:124):
the source writes PRIORITY_CHOICES[2][1] — element 2 of the choices list,
component 1 of that pair. -/
def priorityDefault : String := (PRIORITY_CHOICES.getD 2 ("", "")).2

/-- The stored values admitted by the choices declaration
(first component of each pair). -/
def priorityValues : List String := PRIORITY_CHOICES.map (fun c => c.1)

/-- Product.objects.create with no explicit priority (as in the repository's
own tests, e.g. src/app/wishlist/tests/test_products_api.py:101): the row gets
the model field defaults — priority from `priorityDefault`, link/image null,
notes blank, is_reserved false (spec default). -/
def create_product_default (db : DB) (u : Nat) (nm : String) (price : Int) : Product :=
  { id := db.nextProductId, user := u, name := nm, priority := priorityDefault,
    price := price, link := none, image := none, notes := "", is_reserved := false }

/-- user.permissions.IsAdminOrReadOnly.has_permission
(src/app/user/permissions.py:26-33): safe methods are always allowed;
otherwise bool(request.user and request.user.is_staff) — an anonymous
requester is falsy, an authenticated one is checked for the staff flag. -/
def isAdminOrReadOnly (db : DB) (requester : Option Nat) (methodSafe : Bool) : Bool :=
  if methodSafe then true
  else
    match requester with
    | none => false
    | some uid => (((db.users.find? (fun v => v.id == uid)).map (fun v => v.is_staff)).getD false)

/-- user.permissions.PublicReservePermission.has_permission
(src/app/user/permissions.py:36-50): the reserve and unreserve actions are
open to everyone; every other action requires an authenticated requester. -/
def public_reserve_permission (actionName : String) (requester : Option Nat) : Bool :=
  if actionName == "reserve" then true
  else if actionName == "unreserve" then true
  else
    match requester with
    | none => false
    | some _ => true

/-- ProductViewSet.get_queryset (src/app/wishlist/views.py:184-197) for an
authenticated requester u: when assigned_only is set, keep products that
belong to at least one wishlist (wishlist__isnull=False over the
many-to-many); then filter to user = request.user.  The trailing
order_by('-name').distinct() only reorders/dedups and does not change which
product ids are retrievable, so it is not embedded.  For an anonymous
request the filter(user=self.request.user) at views.py:194 is applied to
AnonymousUser and raises TypeError — an unhandled fault — which the handlers
below embed as error500 before this queryset is ever built. -/
def productGetQueryset (db : DB) (u : Nat) (assigned_only : Bool) : List Product :=
  let qs := if assigned_only then
      db.products.filter (fun p => db.wishlists.any (fun w => w.products.contains p.id))
    else db.products
  qs.filter (fun p => p.user == u)

/-- GenericAPIView.get_object for ProductViewSet and an authenticated
requester: look the pk up inside get_queryset (detail actions carry no
assigned_only query parameter, so the default 0 applies); a pk outside the
queryset raises Http404. -/
def productGetObject (db : DB) (u : Nat) (pk : Nat) : Option Product :=
  (productGetQueryset db u false).find? (fun p => p.id == pk)

/-- mixins.UpdateModelMixin on ProductViewSet (partial update of the name
field): IsOwnerOrReadOnly has no request-level check, so an anonymous request
reaches get_queryset, whose filter(user=AnonymousUser) raises TypeError — an
unhandled fault (error500).  An authenticated requester goes through
get_object over the owner-filtered queryset, then the new attribute values
are saved. -/
def update_product (db : DB) (requester : Option Nat) (pk : Nat) (newName : String) : HttpStatus × DB :=
  match requester with
  | none => (HttpStatus.error500, db)
  | some u =>
    match productGetObject db u pk with
    | none => (HttpStatus.notFound404, db)
    | some p =>
      (HttpStatus.ok200,
        { db with products := db.products.map (fun q =>
            if q.id == p.id then { q with name := newName } else q) })

/-- mixins.DestroyModelMixin on ProductViewSet: an anonymous request hits the
TypeError of the queryset filter (unhandled, error500); an authenticated one
resolves through get_object over the owner-filtered queryset, then the row is
deleted. -/
def destroy_product (db : DB) (requester : Option Nat) (pk : Nat) : HttpStatus × DB :=
  match requester with
  | none => (HttpStatus.error500, db)
  | some u =>
    match productGetObject db u pk with
    | none => (HttpStatus.notFound404, db)
    | some p =>
      (HttpStatus.noContent204,
        { db with products := db.products.filter (fun q => !(q.id == p.id)) })

/-- ProductViewSet.upload_image (src/app/wishlist/views.py:206-216): an
anonymous request hits the TypeError of the queryset filter (unhandled,
error500); an authenticated one resolves through get_object over the
owner-filtered queryset; an invalid payload (embedded as `none`) is a 400, a
valid image is stored on the product. -/
def upload_image (db : DB) (requester : Option Nat) (pk : Nat) (img : Option String) : HttpStatus × DB :=
  match requester with
  | none => (HttpStatus.error500, db)
  | some u =>
    match productGetObject db u pk with
    | none => (HttpStatus.notFound404, db)
    | some p =>
      match img with
      | none => (HttpStatus.badRequest400, db)
      | some i =>
        (HttpStatus.ok200,
          { db with products := db.products.map (fun q =>
              if q.id == p.id then { q with image := some i } else q) })

/-- The wishlist the reserve/unreserve handlers navigate to from the product.
Modelled from the spec ("resolve the product and its associated wishlist"):
src/app/core/models.py declares the association as a many-to-many from
Wishlist, while src/app/wishlist/views.py reads `product.wishlist` as if it
were a single reference; the embedding resolves the first wishlist whose
product set contains the product. -/
def associatedWishlist (db : DB) (p : Product) : Option Wishlist :=
  db.wishlists.find? (fun w => w.products.contains p.id)

/-- ProductViewSet.reserve (src/app/wishlist/views.py:218-255):
PublicReservePermission admits any requester, so even an anonymous request
proceeds to get_object — where the queryset filter(user=AnonymousUser) at
views.py:194 raises TypeError, an unhandled fault embedded as error500 (the
except clause only catches Product.DoesNotExist).  For an authenticated
requester, get_object resolves the pk through the owner-filtered queryset
(404 when it does not resolve); the wishlist owner is refused with 403;
otherwise is_reserved is set true and saved.  A product with no associated
wishlist likewise makes `product.wishlist` an unhandled fault. -/
def reserve (db : DB) (requester : Option Nat) (pk : Nat) : HttpStatus × DB :=
  if !(public_reserve_permission "reserve" requester) then (HttpStatus.forbidden403, db)
  else
    match requester with
    | none => (HttpStatus.error500, db)
    | some u =>
      match productGetObject db u pk with
      | none => (HttpStatus.notFound404, db)
      | some p =>
        match associatedWishlist db p with
        | none => (HttpStatus.error500, db)
        | some w =>
          if u == w.user then (HttpStatus.forbidden403, db)
          else
            (HttpStatus.ok200,
              { db with products := db.products.map (fun q =>
                  if q.id == p.id then { q with is_reserved := true } else q) })

/-- ProductViewSet.unreserve (src/app/wishlist/views.py:257-289): identical to
reserve except is_reserved is set false. -/
def unreserve (db : DB) (requester : Option Nat) (pk : Nat) : HttpStatus × DB :=
  if !(public_reserve_permission "unreserve" requester) then (HttpStatus.forbidden403, db)
  else
    match requester with
    | none => (HttpStatus.error500, db)
    | some u =>
      match productGetObject db u pk with
      | none => (HttpStatus.notFound404, db)
      | some p =>
        match associatedWishlist db p with
        | none => (HttpStatus.error500, db)
        | some w =>
          if u == w.user then (HttpStatus.forbidden403, db)
          else
            (HttpStatus.ok200,
              { db with products := db.products.map (fun q =>
                  if q.id == p.id then { q with is_reserved := false } else q) })

/-- Resolution step of WishlistViewSet.generate_share_link
(src/app/wishlist/views.py:87): get_list_or_404(Wishlist, id__in=wishlist_ids,
user=user) — the wishlists among the posted ids that the requester owns. -/
def ownedResolve (db : DB) (u : Nat) (ids : List Nat) : List Wishlist :=
  db.wishlists.filter (fun w => ids.contains w.id && w.user == u)

/-- The per-wishlist write of generate_share_link's save loop
(src/app/wishlist/views.py:106-108): a wishlist whose id was resolved gets
is_public = true; every other row is untouched. -/
def publishWishlist (ids : List Nat) (w : Wishlist) : Wishlist :=
  if ids.contains w.id then { w with is_public := true } else w

/-- WishlistViewSet.generate_share_link (src/app/wishlist/views.py:73-116):
an empty id list is a 400; get_list_or_404 over id__in plus user is a 404
when nothing resolves; the incorrect_user double-check (vacuous, since the
resolution already filtered on user) would be a 403; otherwise every resolved
wishlist is saved with is_public = true and the response carries the link
"scheme://host/wishlists/view/{user.uuid}/{ids}" — embedded as the list of
resolved wishlist ids in resolution order (the comma-joined payload of the
link). -/
def generate_share_link (db : DB) (u : Nat) (ids : List Nat) : HttpStatus × Option (List Nat) × DB :=
  if ids.isEmpty then (HttpStatus.badRequest400, none, db)
  else
    let wishlists := ownedResolve db u ids
    if wishlists.isEmpty then (HttpStatus.notFound404, none, db)
    else
      let incorrect_user := wishlists.filter (fun w => !(w.user == u))
      if !incorrect_user.isEmpty then (HttpStatus.forbidden403, none, db)
      else
        let pubIds := wishlists.map (fun w => w.id)
        (HttpStatus.ok200, some pubIds,
          { db with wishlists := db.wishlists.map (publishWishlist pubIds) })

/-- The user__uuid join of view_shared_wishlist: does the user row referenced
by uid carry this uuid. -/
def userUuidIs (db : DB) (uid : Nat) (uu : Nat) : Bool :=
  match db.users.find? (fun v => v.id == uid) with
  | some v => v.uuid == uu
  | none => false

/-- Resolution step of WishlistViewSet.view_shared_wishlist
(src/app/wishlist/views.py:131-133): Wishlist.objects.filter(
id__in=wishlist_ids_list, user__uuid=user_uuid). -/
def sharedResolve (db : DB) (user_uuid : Nat) (ids : List Nat) : List Wishlist :=
  db.wishlists.filter (fun w => ids.contains w.id && userUuidIs db w.user user_uuid)

/-- WishlistViewSet.view_shared_wishlist (src/app/wishlist/views.py:118-156):
an empty resolution is a 404; if any resolved wishlist is not public the whole
batch is refused with 400; otherwise the full resolved set is returned
(serialized with the list projection, which carries id/title/occasion_date/
products — the projection does not change which wishlists are returned, so the
embedding returns the records). -/
def view_shared_wishlist (db : DB) (user_uuid : Nat) (ids : List Nat) : HttpStatus × Option (List Wishlist) :=
  let wishlists := sharedResolve db user_uuid ids
  if wishlists.isEmpty then (HttpStatus.notFound404, none)
  else
    let non_public := wishlists.filter (fun w => !w.is_public)
    if !non_public.isEmpty then (HttpStatus.badRequest400, none)
    else (HttpStatus.ok200, some wishlists)

/-- The validated product payload of wishlist.serializers.ProductSerializer
(src/app/wishlist/serializers.py:13-39): name, link, priority, price, notes,
image (id is read-only). -/
structure ProductPayload where
  name : String
  link : Option String
  priority : String
  price : Int
  notes : String
  image : Option String
deriving DecidableEq

/-- The validated wishlist payload of
wishlist.serializers.WishlistDetailSerializer
(src/app/wishlist/serializers.py:77-129): title, occasion_date, nested
products, plus description and address from the detail projection. -/
structure WishlistPayload where
  title : String
  description : String
  address : String
  occasion_date : String
  products : List ProductPayload
deriving DecidableEq

/-- Does an existing product row match Product.objects.get_or_create(
user=auth_user, **product) (src/app/wishlist/serializers.py:91-94): the owner
and every payload attribute must coincide. -/
def productMatches (u : Nat) (pay : ProductPayload) (p : Product) : Bool :=
  p.user == u && p.name == pay.name && p.link == pay.link &&
    p.priority == pay.priority && p.price == pay.price &&
    p.notes == pay.notes && p.image == pay.image

/-- Product.objects.get_or_create(user=auth_user, **product): reuse the first
matching row, else insert a new one (is_reserved gets the spec default false,
the auto pk comes from the counter).  Returns the product id to add to the
wishlist's many-to-many set. -/
def get_or_create_product (db : DB) (u : Nat) (pay : ProductPayload) : Nat × DB :=
  match db.products.find? (productMatches u pay) with
  | some p => (p.id, db)
  | none =>
    (db.nextProductId,
      { db with
        products := db.products ++
          [{ id := db.nextProductId, user := u, name := pay.name,
             priority := pay.priority, price := pay.price, link := pay.link,
             image := pay.image, notes := pay.notes, is_reserved := false }],
        nextProductId := db.nextProductId + 1 })

/-- WishlistSerializer._get_or_create_products
(src/app/wishlist/serializers.py:87-95): run get_or_create over each payload
product, collecting the ids added to wishlist.products. -/
def addProducts (db : DB) (u : Nat) (pays : List ProductPayload) : DB × List Nat :=
  match pays with
  | [] => (db, [])
  | pay :: rest =>
    let r1 := get_or_create_product db u pay
    let r2 := addProducts r1.2 u rest
    (r2.1, r1.1 :: r2.2)

/-- WishlistSerializer.create (src/app/wishlist/serializers.py:100-106) with
serializer.save(user=...) from the view: create the wishlist row owned by u
(is_public gets the spec default false), then get-or-create each payload
product and add it to the row's product set. -/
def wishlist_create (db : DB) (u : Nat) (pay : WishlistPayload) : DB × Wishlist :=
  let db0 := { db with nextWishlistId := db.nextWishlistId + 1 }
  let r := addProducts db0 u pay.products
  let w : Wishlist :=
    { id := db.nextWishlistId, user := u, title := pay.title,
      description := pay.description, occasion_date := pay.occasion_date,
      address := pay.address, products := r.2, is_public := false }
  ({ r.1 with wishlists := r.1.wishlists ++ [w] }, w)

/-- MergeWishlistView.create (src/app/wishlist/views.py:302-351): a missing or
empty wishList payload is a 400; otherwise the for-loop over the payloads
saves the first one and immediately returns 201 from inside the loop body
(the `return Response(...)` at views.py:349 is indented inside the `for` at
views.py:315), so the remaining payloads are never processed. -/
def merge_wishlists (db : DB) (u : Nat) (payloads : List WishlistPayload) : HttpStatus × DB :=
  match payloads with
  | [] => (HttpStatus.badRequest400, db)
  | pay :: _ => (HttpStatus.created201, (wishlist_create db u pay).1)

/-- The validated comment payload of blog.serializers.CommentSerializer
(src/app/blog/serializers.py:18-29): body, post FK, optional parent_comment
FK (owner and replies are read-only). -/
structure CommentRequest where
  body : String
  post : Nat
  parent_comment : Option Nat
deriving DecidableEq

/-- The row CommentListCreateView.perform_create saves
(src/app/blog/views.py:103-105): the payload plus owner = request.user and
the auto pk. -/
def newCommentOf (db : DB) (author : Nat) (req : CommentRequest) : Comment :=
  { id := db.nextCommentId, body := req.body, owner := author,
    post := req.post, parent_comment := req.parent_comment }

/-- Append the created comment row and bump the pk counter. -/
def addComment (db : DB) (author : Nat) (req : CommentRequest) : DB :=
  { db with comments := db.comments ++ [newCommentOf db author req],
            nextCommentId := db.nextCommentId + 1 }

/-- CommentListCreateView.create (src/app/blog/views.py:50-105).
IsAuthenticatedOrReadOnly refuses an anonymous POST with 401.  Then
serializer.is_valid(raise_exception=True) checks the generated fields: body
non-blank, the post FK must reference an existing Post, and the
parent_comment FK — when supplied — must reference an existing Comment
(an invalid pk is a serializer ValidationError, HTTP 400).  After validation,
when a parent_comment id was supplied: a parent that is itself a reply is a
400; a parent that already has a reply is a 400; a non-staff author
(IsAdminOrReadOnly on a POST) is a 403; otherwise the reply is created with
owner = author.  No check compares the parent comment's post with the
supplied post id. -/
def comment_create_auth (db : DB) (author : Nat) (req : CommentRequest) : HttpStatus × DB :=
  if req.body = "" then (HttpStatus.badRequest400, db)
    else if (db.posts.find? (fun p => p.id == req.post)).isNone then (HttpStatus.badRequest400, db)
    else
      match req.parent_comment with
      | none => (HttpStatus.created201, addComment db author req)
      | some pid =>
        match db.comments.find? (fun c => c.id == pid) with
        | none => (HttpStatus.badRequest400, db)
        | some parent =>
          if parent.parent_comment.isSome then (HttpStatus.badRequest400, db)
          else if db.comments.any (fun c => c.parent_comment == some pid) then
            (HttpStatus.badRequest400, db)
          else if !(isAdminOrReadOnly db (some author) false) then
            (HttpStatus.forbidden403, db)
          else (HttpStatus.created201, addComment db author req)

/-- CommentListCreateView.create dispatched over the requester:
IsAuthenticatedOrReadOnly refuses an anonymous POST with 401, otherwise the
authenticated handler body runs. -/
def comment_create (db : DB) (requester : Option Nat) (req : CommentRequest) : HttpStatus × DB :=
  match requester with
  | none => (HttpStatus.unauthorized401, db)
  | some author => comment_create_auth db author req

/-- A list with a member is not embedded-empty. -/
lemma listIsEmptyFalseOfMem {α : Type} {a : α} {l : List α} (h : a ∈ l) : l.isEmpty = false := by
  cases l with
  | nil => cases h
  | cons b t => rfl

/-- A nonempty list is not embedded-empty. -/
lemma listIsEmptyFalseOfNeNil {α : Type} {l : List α} (h : l ≠ []) : l.isEmpty = false := by
  cases l with
  | nil => exact absurd rfl h
  | cons b t => rfl

/-- A filter whose predicate refuses every member is empty. -/
lemma listFilterEqNilOfAllFalse {α : Type} (p : α → Bool) (l : List α)
    (h : ∀ a ∈ l, p a = false) : l.filter p = [] := by
  induction l with
  | nil => rfl
  | cons a t ih =>
    rw [List.filter_cons, h a (List.mem_cons_self a t)]
    exact ih fun b hb => h b (List.mem_cons_of_mem a hb)

/-- Filtering commutes with a map that does not change the predicate. -/
lemma listFilterMapComm {α : Type} (g : α → α) (p : α → Bool)
    (hp : ∀ a, p (g a) = p a) : ∀ l : List α, (l.map g).filter p = (l.filter p).map g := by
  intro l
  induction l with
  | nil => rfl
  | cons a t ih => cases hpa : p a <;> simp [List.filter_cons, hp a, hpa, ih]

/-- Mapping f after g is mapping their pointwise composite. -/
lemma listMapMapCongr {α β γ : Type} (g : α → β) (f : β → γ) (h : α → γ)
    (hfg : ∀ a, f (g a) = h a) : ∀ l : List α, (l.map g).map f = l.map h := by
  intro l
  induction l with
  | nil => rfl
  | cons a t ih => rw [List.map_cons, List.map_cons, List.map_cons, hfg a, ih]

/-- Mapping preserves embedded emptiness. -/
lemma listMapIsEmpty {α β : Type} (g : α → β) (l : List α) : (l.map g).isEmpty = l.isEmpty := by
  cases l <;> rfl

/-- publishWishlist never changes the primary key. -/
lemma publishWishlist_id (ids : List Nat) (w : Wishlist) : (publishWishlist ids w).id = w.id := by
  unfold publishWishlist
  split <;> rfl

/-- publishWishlist never changes the owner. -/
lemma publishWishlist_user (ids : List Nat) (w : Wishlist) : (publishWishlist ids w).user = w.user := by
  unfold publishWishlist
  split <;> rfl

/-- Setting is_public twice is setting it once. -/
lemma publishWishlist_idem (ids : List Nat) (w : Wishlist) :
    publishWishlist ids (publishWishlist ids w) = publishWishlist ids w := by
  unfold publishWishlist
  by_cases h : ids.contains w.id = true
  · rw [if_pos h, if_pos (show ids.contains ({ w with is_public := true } : Wishlist).id = true from h)]
  · rw [if_neg h, if_neg h]

/-- A wishlist whose id was resolved comes out public. -/
lemma publishWishlist_is_public (ids : List Nat) (w : Wishlist) (h : ids.contains w.id = true) :
    (publishWishlist ids w).is_public = true := by
  unfold publishWishlist
  rw [if_pos h]

/-- Sample rows: the wishlist-owning user and an unrelated user. -/
def uOwner : User := ⟨1, 11, false⟩

/-- Sample rows: a user who owns nothing in the sample store. -/
def uOther : User := ⟨2, 22, false⟩

/-- Sample rows: a product owned by user 1. -/
def prodX : Product := ⟨10, 1, "watch", "HIGH", 5999, none, none, "", false⟩

/-- Sample rows: user 1's wishlist holding product 10. -/
def wlX : Wishlist := ⟨20, 1, "bday", "", "2020-01-01", "", [10], false⟩

/-- Sample store for the reserve/unreserve handlers. -/
def dbR : DB := ⟨[uOwner, uOther], [wlX], [prodX], [], [], 21, 11, 1⟩

/-- Sample rows: a regular user for the comment engine. -/
def u5 : User := ⟨5, 55, false⟩

/-- Sample rows: a staff user for the comment engine. -/
def u7 : User := ⟨7, 77, true⟩

/-- Sample rows: a blog post. -/
def post1 : Post := ⟨1, 7, "post one"⟩

/-- Sample rows: a second blog post. -/
def post2 : Post := ⟨2, 7, "post two"⟩

/-- Sample rows: a top-level comment on post 1 that already has a reply. -/
def cTop : Comment := ⟨1, "first", 5, 1, none⟩

/-- Sample rows: the reply to cTop. -/
def cReply : Comment := ⟨2, "reply", 7, 1, some 1⟩

/-- Sample rows: a top-level comment on post 1 with no reply yet. -/
def cFree : Comment := ⟨3, "second", 5, 1, none⟩

/-- Sample store for the comment engine. -/
def dbC : DB := ⟨[u5, u7], [], [], [post1, post2], [cTop, cReply, cFree], 1, 1, 4⟩

/-- Sample rows: the user whose uuid 99 appears in share links. -/
def uShare : User := ⟨1, 99, false⟩

/-- Sample rows: a public wishlist of user 1. -/
def wlPub : Wishlist := ⟨1, 1, "public list", "", "2020-01-01", "", [], true⟩

/-- Sample rows: a private wishlist of user 1. -/
def wlPriv : Wishlist := ⟨2, 1, "private list", "", "2020-01-01", "", [], false⟩

/-- Sample store for view_shared_wishlist. -/
def dbV : DB := ⟨[uShare], [wlPub, wlPriv], [], [], [], 3, 1, 1⟩

/-- Sample rows: a not-yet-public wishlist of user 1. -/
def wlG : Wishlist := ⟨1, 1, "gifts", "", "2020-01-01", "", [], false⟩

/-- Sample store for generate_share_link. -/
def dbG : DB := ⟨[uShare], [wlG], [], [], [], 2, 1, 1⟩

/-- dbG after generate_share_link published wishlist 1. -/
def dbG1 : DB := ⟨[uShare], [{ wlG with is_public := true }], [], [], [], 2, 1, 1⟩

/-- Sample payload: first wishlist of a merge batch. -/
def payA : WishlistPayload := ⟨"alpha", "", "", "2020-01-01", [⟨"socks", none, "LOW", 500, "", none⟩]⟩

/-- Sample payload: second wishlist of a merge batch. -/
def payB : WishlistPayload := ⟨"beta", "", "", "2020-02-02", []⟩

/-- Sample store for merge_wishlists. -/
def dbM : DB := ⟨[uOwner], [], [], [], [], 1, 1, 1⟩

/-- An empty store. -/
def dbEmpty : DB := ⟨[], [], [], [], [], 1, 1, 1⟩

/-- C9: a Product created without an explicit priority stores the model
default PRIORITY_CHOICES[2][1], which evaluates to the display label "low" —
not "LOW", and not a member of the stored-value enumeration
HIGH/MEDIUM/LOW admitted by the choices declaration. -/
theorem product_priority_default_invalid :
    (create_product_default dbEmpty 1 "Pink Top" 1099).priority = "low" ∧
    priorityValues.contains (create_product_default dbEmpty 1 "Pink Top" 1099).priority = false ∧
    priorityDefault ≠ LOW := by
  refine ⟨rfl, rfl, ?_⟩
  decide

/-- C1: evaluation of the reserve handler over the sample store — product 10
is owned by user 1 and sits in user 1's wishlist 20.  The authenticated
non-owner user 2 gets 404 (the owner-filtered queryset never resolves another
user's product), the anonymous requester gets the unhandled TypeError of
filter(user=AnonymousUser) — status 500 — the owner gets 403, and no call
ever sets is_reserved: the claimed successful non-owner reserve is
unreachable. -/
theorem reserve_never_succeeds_demo :
    reserve dbR (some 2) 10 = (HttpStatus.notFound404, dbR) ∧
    reserve dbR none 10 = (HttpStatus.error500, dbR) ∧
    reserve dbR (some 1) 10 = (HttpStatus.forbidden403, dbR) ∧
    (∀ p ∈ dbR.products, p.is_reserved = false) ∧
    prodX.user = 1 ∧ wlX.user = 1 ∧ wlX.products.contains prodX.id = true := by
  decide

/-- C3 counterexample: merging the two-payload batch [payA, payB] persists
exactly one new wishlist; no wishlist titled like payB exists afterwards, and
the result is identical to merging [payA] alone — the second payload is
dropped, refuting that every wishlist of the batch is persisted. -/
theorem merge_second_payload_dropped :
    (merge_wishlists dbM 1 [payA, payB]).1 = HttpStatus.created201 ∧
    ((merge_wishlists dbM 1 [payA, payB]).2).wishlists.length = dbM.wishlists.length + 1 ∧
    ((merge_wishlists dbM 1 [payA, payB]).2).wishlists.any (fun w => w.title == payB.title) = false ∧
    merge_wishlists dbM 1 [payA, payB] = merge_wishlists dbM 1 [payA] := by
  decide

/-- The wishlist create of the serializer never touches the wishlist table
through its product get-or-create step. -/
lemma get_or_create_product_wishlists (db : DB) (u : Nat) (pay : ProductPayload) :
    (get_or_create_product db u pay).2.wishlists = db.wishlists := by
  unfold get_or_create_product
  cases db.products.find? (productMatches u pay) <;> rfl

/-- addProducts only touches the product table and the product counter. -/
lemma addProducts_wishlists (u : Nat) :
    ∀ (pays : List ProductPayload) (db : DB), (addProducts db u pays).1.wishlists = db.wishlists := by
  intro pays
  induction pays with
  | nil => intro db; rfl
  | cons pay rest ih =>
    intro db
    show (addProducts (get_or_create_product db u pay).2 u rest).1.wishlists = db.wishlists
    rw [ih, get_or_create_product_wishlists]

/-- C3 amended: merge_wishlists on a non-empty batch persists exactly the
first payload — one new wishlist owned by the actor with the first payload's
title, appended to the store — returns it with 201, and produces the very same
result as merging the first payload alone. -/
theorem merge_wishlists_first_only (db : DB) (u : Nat) (pay : WishlistPayload)
    (rest : List WishlistPayload) :
    merge_wishlists db u (pay :: rest) = merge_wishlists db u [pay] ∧
    (merge_wishlists db u (pay :: rest)).1 = HttpStatus.created201 ∧
    ∃ w, (merge_wishlists db u (pay :: rest)).2.wishlists = db.wishlists ++ [w] ∧
      w.user = u ∧ w.title = pay.title := by
  refine ⟨rfl, rfl, (wishlist_create db u pay).2, ?_, rfl, rfl⟩
  show (wishlist_create db u pay).1.wishlists = db.wishlists ++ [(wishlist_create db u pay).2]
  simp only [wishlist_create]
  rw [addProducts_wishlists]



/-- C4 counterexample: in the sample store, comment 3 is a top-level comment
on post 1 with no reply.  A reply request by the staff user 7 that supplies
post 2 and parent_comment 3 — the parent's post differs from the supplied
post — is not rejected: it is created (201) and the new row references post 2
with parent 3.  And a request whose parent_comment 99 does not exist is
rejected with 400 (serializer validation), not 404. -/
theorem comment_parent_post_mismatch_accepted :
    comment_create dbC (some 7) ⟨"cross-post reply", 2, some 3⟩ =
      (HttpStatus.created201, addComment dbC 7 ⟨"cross-post reply", 2, some 3⟩) ∧
    (addComment dbC 7 ⟨"cross-post reply", 2, some 3⟩).comments.any
      (fun c => c.post == 2 && c.parent_comment == some 3) = true ∧
    comment_create dbC (some 7) ⟨"orphan reply", 1, some 99⟩ = (HttpStatus.badRequest400, dbC) := by
  decide

/-- C4 amended: a comment-create request whose parent_comment id matches no
existing comment is rejected by serializer validation with InvalidRequest
(HTTP 400) and the store is unchanged; the handler performs no comparison of
the parent comment's post with the supplied post id. -/
theorem comment_missing_parent_rejected (db : DB) (a : Nat) (req : CommentRequest) (pid : Nat)
    (h1 : req.parent_comment = some pid)
    (h2 : db.comments.find? (fun c => c.id == pid) = none) :
    comment_create db (some a) req = (HttpStatus.badRequest400, db) := by
  show comment_create_auth db a req = _
  unfold comment_create_auth
  split
  · rfl
  · split
    · rfl
    · simp [h1, h2]

/-- C4 amended witness: the general rejection applied to the sample store at
parent id 99, which no comment carries. -/
theorem comment_missing_parent_rejected_witness :
    ((⟨"orphan reply", 1, some 99⟩ : CommentRequest).parent_comment = some 99 ∧
      dbC.comments.find? (fun c => c.id == 99) = none) ∧
    comment_create dbC (some 7) ⟨"orphan reply", 1, some 99⟩ = (HttpStatus.badRequest400, dbC) :=
  ⟨⟨rfl, by decide⟩,
    comment_missing_parent_rejected dbC 7 ⟨"orphan reply", 1, some 99⟩ 99 rfl (by decide)⟩

/-- C5: when the supplied parent_comment resolves to an existing top-level
comment that already has a reply, the request is rejected with InvalidRequest
(HTTP 400) and no comment row is created (the store is unchanged). -/
theorem comment_duplicate_reply_rejected (db : DB) (a : Nat) (req : CommentRequest)
    (pid : Nat) (P : Comment)
    (h1 : req.parent_comment = some pid)
    (h2 : db.comments.find? (fun c => c.id == pid) = some P)
    (h3 : P.parent_comment = none)
    (h4 : db.comments.any (fun c => c.parent_comment == some pid) = true) :
    comment_create db (some a) req = (HttpStatus.badRequest400, db) := by
  show comment_create_auth db a req = _
  unfold comment_create_auth
  split
  · rfl
  · split
    · rfl
    · simp [h1, h2, h3, h4]

/-- C5 witness: comment 1 of the sample store is top-level and comment 2
already replies to it; a second reply attempt by the staff user is refused. -/
theorem comment_duplicate_reply_rejected_witness :
    ((⟨"second reply", 1, some 1⟩ : CommentRequest).parent_comment = some 1 ∧
      dbC.comments.find? (fun c => c.id == 1) = some cTop ∧
      cTop.parent_comment = none ∧
      dbC.comments.any (fun c => c.parent_comment == some 1) = true) ∧
    comment_create dbC (some 7) ⟨"second reply", 1, some 1⟩ = (HttpStatus.badRequest400, dbC) :=
  ⟨⟨rfl, by decide, rfl, by decide⟩,
    comment_duplicate_reply_rejected dbC 7 ⟨"second reply", 1, some 1⟩ 1 cTop rfl (by decide) rfl (by decide)⟩

/-- C6: when the supplied parent_comment resolves to a comment that is itself
a reply (non-null parent_comment), the request is rejected with InvalidRequest
(HTTP 400) and no comment row is created (the store is unchanged). -/
theorem comment_reply_to_reply_rejected (db : DB) (a : Nat) (req : CommentRequest)
    (pid : Nat) (P : Comment) (q : Nat)
    (h1 : req.parent_comment = some pid)
    (h2 : db.comments.find? (fun c => c.id == pid) = some P)
    (h3 : P.parent_comment = some q) :
    comment_create db (some a) req = (HttpStatus.badRequest400, db) := by
  show comment_create_auth db a req = _
  unfold comment_create_auth
  split
  · rfl
  · split
    · rfl
    · simp [h1, h2, h3]

/-- C6 witness: comment 2 of the sample store is the reply to comment 1;
replying to it is refused even for the staff user. -/
theorem comment_reply_to_reply_rejected_witness :
    ((⟨"reply to reply", 1, some 2⟩ : CommentRequest).parent_comment = some 2 ∧
      dbC.comments.find? (fun c => c.id == 2) = some cReply ∧
      cReply.parent_comment = some 1) ∧
    comment_create dbC (some 7) ⟨"reply to reply", 1, some 2⟩ = (HttpStatus.badRequest400, dbC) :=
  ⟨⟨rfl, by decide, rfl⟩,
    comment_reply_to_reply_rejected dbC 7 ⟨"reply to reply", 1, some 2⟩ 2 cReply 1 rfl (by decide) rfl⟩

/-- C7: a reply request that passes validation (non-blank body, existing
post, existing parent), the reply-to-reply check and the duplicate-reply
check is refused with Forbidden when the author is not staff, and for a staff
author it is created with 201 — the new row is appended with
owner = author and the supplied parent. -/
theorem comment_reply_admin_gate (db : DB) (a : Nat) (req : CommentRequest)
    (pid : Nat) (P : Comment) (po : Post)
    (hb : ¬(req.body = ""))
    (hp : db.posts.find? (fun p => p.id == req.post) = some po)
    (h1 : req.parent_comment = some pid)
    (h2 : db.comments.find? (fun c => c.id == pid) = some P)
    (h3 : P.parent_comment = none)
    (h4 : db.comments.any (fun c => c.parent_comment == some pid) = false) :
    (isAdminOrReadOnly db (some a) false = false →
        comment_create db (some a) req = (HttpStatus.forbidden403, db)) ∧
    (isAdminOrReadOnly db (some a) false = true →
        comment_create db (some a) req = (HttpStatus.created201, addComment db a req) ∧
        (newCommentOf db a req).owner = a ∧
        (newCommentOf db a req).parent_comment = some pid) := by
  constructor
  · intro hstaff
    show comment_create_auth db a req = _
    unfold comment_create_auth
    simp [hb, hp, h1, h2, h3, h4, hstaff]
  · intro hstaff
    refine ⟨?_, rfl, h1⟩
    show comment_create_auth db a req = _
    unfold comment_create_auth
    simp [hb, hp, h1, h2, h3, h4, hstaff]

/-- C7 witness: comment 3 of the sample store is top-level with no reply; the
gate applied there — user 7 is staff, so the created branch is usable, and
the forbidden branch is usable for any non-staff author through the same
theorem at author 5. -/
theorem comment_reply_admin_gate_witness :
    (¬((⟨"a reply", 1, some 3⟩ : CommentRequest).body = "") ∧
      dbC.posts.find? (fun p => p.id == 1) = some post1 ∧
      (⟨"a reply", 1, some 3⟩ : CommentRequest).parent_comment = some 3 ∧
      dbC.comments.find? (fun c => c.id == 3) = some cFree ∧
      cFree.parent_comment = none ∧
      dbC.comments.any (fun c => c.parent_comment == some 3) = false) ∧
    ((isAdminOrReadOnly dbC (some 7) false = false →
        comment_create dbC (some 7) ⟨"a reply", 1, some 3⟩ = (HttpStatus.forbidden403, dbC)) ∧
      (isAdminOrReadOnly dbC (some 7) false = true →
        comment_create dbC (some 7) ⟨"a reply", 1, some 3⟩ =
          (HttpStatus.created201, addComment dbC 7 ⟨"a reply", 1, some 3⟩) ∧
        (newCommentOf dbC 7 ⟨"a reply", 1, some 3⟩).owner = 7 ∧
        (newCommentOf dbC 7 ⟨"a reply", 1, some 3⟩).parent_comment = some 3)) :=
  ⟨⟨by decide, by decide, rfl, by decide, rfl, by decide⟩,
    comment_reply_admin_gate dbC 7 ⟨"a reply", 1, some 3⟩ 3 cFree post1
      (by decide) (by decide) rfl (by decide) rfl (by decide)⟩

/-- C2: over any store, whenever the shared-view resolution (id list plus
owner uuid) is non-empty, one non-public wishlist among the resolved set makes
the whole request fail with InvalidRequest (HTTP 400, nothing returned), and
an all-public resolved set is returned in full. -/
theorem view_shared_all_or_nothing (db : DB) (uu : Nat) (ids : List Nat)
    (hne : sharedResolve db uu ids ≠ []) :
    ((∃ w ∈ sharedResolve db uu ids, w.is_public = false) →
        view_shared_wishlist db uu ids = (HttpStatus.badRequest400, none)) ∧
    ((∀ w ∈ sharedResolve db uu ids, w.is_public = true) →
        view_shared_wishlist db uu ids = (HttpStatus.ok200, some (sharedResolve db uu ids))) := by
  have h1 : (sharedResolve db uu ids).isEmpty = false := listIsEmptyFalseOfNeNil hne
  constructor
  · rintro ⟨w, hw, hpub⟩
    have h2 : ((sharedResolve db uu ids).filter (fun w => !w.is_public)).isEmpty = false :=
      listIsEmptyFalseOfMem (List.mem_filter.mpr ⟨hw, by rw [hpub]; rfl⟩)
    unfold view_shared_wishlist
    simp [h1, h2]
  · intro hall
    have h2 : (sharedResolve db uu ids).filter (fun w => !w.is_public) = [] :=
      listFilterEqNilOfAllFalse _ _ (fun a ha => by rw [hall a ha]; rfl)
    unfold view_shared_wishlist
    simp [h1, h2]

/-- C2 witness: the sample store holds user 1 (uuid 99) with a public
wishlist 1 and a private wishlist 2; the batch [1, 2] resolves both and the
theorem applies. -/
theorem view_shared_all_or_nothing_witness :
    sharedResolve dbV 99 [1, 2] ≠ [] ∧
    (((∃ w ∈ sharedResolve dbV 99 [1, 2], w.is_public = false) →
        view_shared_wishlist dbV 99 [1, 2] = (HttpStatus.badRequest400, none)) ∧
      ((∀ w ∈ sharedResolve dbV 99 [1, 2], w.is_public = true) →
        view_shared_wishlist dbV 99 [1, 2] = (HttpStatus.ok200, some (sharedResolve dbV 99 [1, 2])))) :=
  ⟨by decide, view_shared_all_or_nothing dbV 99 [1, 2] (by decide)⟩

/-- Owner scoping of the product queryset: when no product row with the given
pk is owned by the authenticated requester, get_object resolves nothing. -/
lemma productGetObject_none (db : DB) (u : Nat) (pk : Nat)
    (h : ∀ p ∈ db.products, p.id = pk → u ≠ p.user) :
    productGetObject db u pk = none := by
  simp only [productGetObject, productGetQueryset, Bool.false_eq_true, if_false]
  apply List.find?_eq_none.mpr
  intro x hx hbeq
  rcases List.mem_filter.mp hx with ⟨hmem, hpred⟩
  have hxk : x.id = pk := by simpa using hbeq
  have huser : x.user = u := by simpa using hpred
  exact h x hmem hxk huser.symm

/-- C10 counterexample: the claim says the lookup fails as not-found for the
unauthenticated actor too; over the sample store every single-product
operation invoked anonymously on product 10 instead hits the unhandled
TypeError of filter(user=AnonymousUser) — status 500, not 404. -/
theorem product_ops_anonymous_unhandled_fault :
    update_product dbR none 10 "x" = (HttpStatus.error500, dbR) ∧
    destroy_product dbR none 10 = (HttpStatus.error500, dbR) ∧
    upload_image dbR none 10 (some "img") = (HttpStatus.error500, dbR) ∧
    reserve dbR none 10 = (HttpStatus.error500, dbR) ∧
    unreserve dbR none 10 = (HttpStatus.error500, dbR) ∧
    HttpStatus.error500 ≠ HttpStatus.notFound404 := by
  decide

/-- C10 amended: every single-product operation of the product endpoint —
update, destroy, upload_image, reserve, unreserve — resolves the pk through
the queryset filtered to user = request.user, so a product owned by anyone
other than the requester is never retrieved.  For an authenticated requester
owning no product with that pk the lookup resolves nothing and every
operation answers 404 with the store untouched; an anonymous request never
retrieves any product either, but fails with the unhandled TypeError of
filter(user=AnonymousUser) — status 500 — rather than 404. -/
theorem product_ops_owner_scoped (db : DB) (u : Nat) (pk : Nat)
    (newName : String) (img : Option String)
    (h : ∀ p ∈ db.products, p.id = pk → u ≠ p.user) :
    (productGetObject db u pk = none ∧
      update_product db (some u) pk newName = (HttpStatus.notFound404, db) ∧
      destroy_product db (some u) pk = (HttpStatus.notFound404, db) ∧
      upload_image db (some u) pk img = (HttpStatus.notFound404, db) ∧
      reserve db (some u) pk = (HttpStatus.notFound404, db) ∧
      unreserve db (some u) pk = (HttpStatus.notFound404, db)) ∧
    (update_product db none pk newName = (HttpStatus.error500, db) ∧
      destroy_product db none pk = (HttpStatus.error500, db) ∧
      upload_image db none pk img = (HttpStatus.error500, db) ∧
      reserve db none pk = (HttpStatus.error500, db) ∧
      unreserve db none pk = (HttpStatus.error500, db)) := by
  have h0 := productGetObject_none db u pk h
  refine ⟨⟨h0, ?_, ?_, ?_, ?_, ?_⟩, rfl, rfl, rfl, rfl, rfl⟩
  · simp only [update_product, h0]
  · simp only [destroy_product, h0]
  · simp only [upload_image, h0]
  · simp only [reserve, h0]
    rfl
  · simp only [unreserve, h0]
    rfl

/-- C10 witness: in the sample store, product 10 is owned by user 1, so the
authenticated non-owner user 2 satisfies the premise: every operation answers
404 for user 2, and 500 for the anonymous requester. -/
theorem product_ops_owner_scoped_witness :
    (∀ p ∈ dbR.products, p.id = 10 → (2 : Nat) ≠ p.user) ∧
    ((productGetObject dbR 2 10 = none ∧
       update_product dbR (some 2) 10 "x" = (HttpStatus.notFound404, dbR) ∧
       destroy_product dbR (some 2) 10 = (HttpStatus.notFound404, dbR) ∧
       upload_image dbR (some 2) 10 (some "img") = (HttpStatus.notFound404, dbR) ∧
       reserve dbR (some 2) 10 = (HttpStatus.notFound404, dbR) ∧
       unreserve dbR (some 2) 10 = (HttpStatus.notFound404, dbR)) ∧
     (update_product dbR none 10 "x" = (HttpStatus.error500, dbR) ∧
       destroy_product dbR none 10 = (HttpStatus.error500, dbR) ∧
       upload_image dbR none 10 (some "img") = (HttpStatus.error500, dbR) ∧
       reserve dbR none 10 = (HttpStatus.error500, dbR) ∧
       unreserve dbR none 10 = (HttpStatus.error500, dbR))) :=
  ⟨by decide, product_ops_owner_scoped dbR 2 10 "x" (some "img") (by decide)⟩

/-- C8: generate_share_link is idempotent — whenever a call over a store
succeeds (200 with a link payload and an updated store), repeating the call
with the same owner and id list over the updated store succeeds again with
the very same link payload and leaves the store unchanged, and every resolved
wishlist (posted id, owned by the caller) of the updated store is public. -/
theorem generate_share_link_idempotent (db : DB) (u : Nat) (ids : List Nat)
    (l1 : List Nat) (db1 : DB)
    (h : generate_share_link db u ids = (HttpStatus.ok200, some l1, db1)) :
    generate_share_link db1 u ids = (HttpStatus.ok200, some l1, db1) ∧
    (∀ w ∈ db1.wishlists, ids.contains w.id = true → w.user = u → w.is_public = true) := by
  simp only [generate_share_link] at h
  by_cases hni : ids.isEmpty = true
  · rw [if_pos hni] at h
    simp at h
  · rw [if_neg hni] at h
    by_cases hnr : (ownedResolve db u ids).isEmpty = true
    · rw [if_pos hnr] at h
      simp at h
    · rw [if_neg hnr] at h
      by_cases hninc :
          (!((ownedResolve db u ids).filter (fun w => !(w.user == u))).isEmpty) = true
      · rw [if_pos hninc] at h
        simp at h
      · rw [if_neg hninc] at h
        simp only [Prod.mk.injEq, Option.some.injEq, true_and] at h
        obtain ⟨hl, hdb⟩ := h
        subst hl
        subst hdb
        have hpres : ∀ w : Wishlist,
            (ids.contains (publishWishlist ((ownedResolve db u ids).map (fun w => w.id)) w).id &&
              ((publishWishlist ((ownedResolve db u ids).map (fun w => w.id)) w).user == u)) =
            (ids.contains w.id && (w.user == u)) := by
          intro w
          rw [publishWishlist_id, publishWishlist_user]
        have hF1 : ownedResolve
              { db with wishlists := db.wishlists.map (publishWishlist ((ownedResolve db u ids).map (fun w => w.id))) } u ids
            = (ownedResolve db u ids).map (publishWishlist ((ownedResolve db u ids).map (fun w => w.id))) := by
          show (db.wishlists.map (publishWishlist ((ownedResolve db u ids).map (fun w => w.id)))).filter
              (fun w => ids.contains w.id && w.user == u) = _
          exact listFilterMapComm _ _ hpres db.wishlists
        have hF2 : ((ownedResolve db u ids).map (publishWishlist ((ownedResolve db u ids).map (fun w => w.id)))).map (fun w => w.id)
            = (ownedResolve db u ids).map (fun w => w.id) :=
          listMapMapCongr _ _ _ (fun a => publishWishlist_id _ a) _
        have hF3 : (ownedResolve db u ids).isEmpty = false := by
          revert hnr
          cases (ownedResolve db u ids).isEmpty <;> simp
        have hIncNil : (ownedResolve db u ids).filter (fun w => !(w.user == u)) = [] := by
          apply listFilterEqNilOfAllFalse
          intro a ha
          have ha' : a ∈ db.wishlists.filter (fun w => ids.contains w.id && w.user == u) := ha
          rcases List.mem_filter.mp ha' with ⟨-, hf⟩
          have hu : (a.user == u) = true := by
            simp only [Bool.and_eq_true] at hf
            exact hf.2
          rw [hu]
          rfl
        have hInc2 : ((ownedResolve db u ids).map (publishWishlist ((ownedResolve db u ids).map (fun w => w.id)))).filter
              (fun w => !(w.user == u)) = [] := by
          rw [listFilterMapComm _ _ (fun a => by rw [publishWishlist_user]) _, hIncNil]
          rfl
        have hIdem : (db.wishlists.map (publishWishlist ((ownedResolve db u ids).map (fun w => w.id)))).map
              (publishWishlist ((ownedResolve db u ids).map (fun w => w.id)))
            = db.wishlists.map (publishWishlist ((ownedResolve db u ids).map (fun w => w.id))) :=
          listMapMapCongr _ _ _ (fun a => publishWishlist_idem _ a) _
        constructor
        · simp only [generate_share_link]
          rw [if_neg hni, hF1]
          simp only [listMapIsEmpty, hF3, Bool.false_eq_true, if_false]
          simp only [hInc2, List.isEmpty_nil, Bool.not_true, Bool.false_eq_true, if_false]
          rw [hF2]
          simp only [hIdem]
        · intro w hw hcont huser
          have hw' : w ∈ db.wishlists.map (publishWishlist ((ownedResolve db u ids).map (fun w => w.id))) := hw
          rcases List.mem_map.mp hw' with ⟨v, hv, rfl⟩
          apply publishWishlist_is_public
          have hcv : ids.contains v.id = true := by
            rw [← publishWishlist_id ((ownedResolve db u ids).map (fun w => w.id)) v]
            exact hcont
          have huv : v.user = u := by
            rw [← publishWishlist_user ((ownedResolve db u ids).map (fun w => w.id)) v]
            exact huser
          have hfv : (ids.contains v.id && (v.user == u)) = true := by
            rw [hcv, huv]
            simp
          have hvR : v ∈ ownedResolve db u ids := List.mem_filter.mpr ⟨hv, hfv⟩
          have hidmem : v.id ∈ (ownedResolve db u ids).map (fun w => w.id) :=
            List.mem_map.mpr ⟨v, hvR, rfl⟩
          exact List.elem_iff.mpr hidmem

/-- C8 witness: the sample store holds the not-yet-public wishlist 1 owned by
user 1; the first call publishes it and returns link payload [1], and the
theorem applies to that successful call. -/
theorem generate_share_link_idempotent_witness :
    generate_share_link dbG 1 [1] = (HttpStatus.ok200, some [1], dbG1) ∧
    (generate_share_link dbG1 1 [1] = (HttpStatus.ok200, some [1], dbG1) ∧
      (∀ w ∈ dbG1.wishlists, ([1] : List Nat).contains w.id = true → w.user = 1 → w.is_public = true)) :=
  ⟨by decide, generate_share_link_idempotent dbG 1 [1] [1] dbG1 (by decide)⟩
